import Mathlib

/-!
# abylebotter: directory, configuration, dispatch and lifecycle

A shallow embedding of
* `slack/usermanager.go` (the user directory),
* `plugin/giveawayplugin/config.go` (`parseConfig`),
* `discord/handleevents.go` (message classification, dispatch, event handlers),
* `matrix/bot.go` (construction, `Start`, `Stop`, `Status`).

Go maps with string keys are association lists read through `GoMap.get`
(the comma-ok lookup) and written through `GoMap.set` (the indexed
assignment). Go `(value, error)` results are `Except String value`.
-/

namespace Abylebotter

/-! ## Go maps keyed by strings -/

/-- A Go `map[string]V`: at most one binding per key is ever visible. -/
abbrev GoMap (V : Type) := List (String × V)

namespace GoMap

/-- The empty map, `make(map[string]V)`. -/
def empty {V : Type} : GoMap V := []

/-- The comma-ok lookup `v, ok := m[k]`. -/
def get {V : Type} : GoMap V → String → Option V
  | [], _ => none
  | (k', v) :: rest, k => if k = k' then some v else get rest k

/-- The builtin `delete(m, k)`. -/
def erase {V : Type} : GoMap V → String → GoMap V
  | [], _ => []
  | (k', v) :: rest, k => if k' = k then erase rest k else (k', v) :: erase rest k

/-- The assignment `m[k] = v`: the old binding of `k`, if any, is replaced. -/
def set {V : Type} (m : GoMap V) (k : String) (v : V) : GoMap V :=
  (k, v) :: m.erase k

/-- The plain index expression `m[k]`: the zero value when the key is absent. -/
def getD {V : Type} (m : GoMap V) (k : String) (zero : V) : V :=
  (m.get k).getD zero

/-- One pass of `for k, v := range m` that rewrites every value in place. -/
def mapValues {V : Type} (f : V → V) : GoMap V → GoMap V
  | [] => []
  | (k, v) :: rest => (k, f v) :: mapValues f rest

end GoMap

/-- A dynamically typed Go value (`interface{}`), as far as the type
assertions of the program tell such values apart. -/
inductive Value where
  | str (s : String)
  | bool (b : Bool)
  | num (n : Int)
  | strs (l : List String)
  | anys (l : List String)
  deriving DecidableEq, Repr

/-! ## slack/usermanager.go -/

namespace Slack

/-- The slack `User` directory entry: the identity and the display name. -/
structure User where
  ID : String
  Name : String
  deriving DecidableEq, Repr

/-- The zero value `User{}`. -/
def User.zero : User := { ID := "", Name := "" }

/-- The three maps held by the user manager. -/
structure userManager where
  knownUsers : GoMap User
  knownUserNames : GoMap String
  knownUserIDs : GoMap String
  deriving Repr

def newUserManager : userManager :=
  { knownUsers := GoMap.empty, knownUserNames := GoMap.empty, knownUserIDs := GoMap.empty }

def userManager.addKnownUser (um : userManager) (channel : User) : userManager :=
  { knownUsers := um.knownUsers.set channel.ID channel
    knownUserNames := um.knownUserNames.set channel.Name channel.ID
    knownUserIDs := um.knownUserIDs.set channel.ID channel.Name }

def userManager.getUserByID (um : userManager) (id : String) : Except String User :=
  match um.knownUsers.get id with
  | some channel => .ok channel
  | none => .error ("User with ID " ++ id ++ " not known")

def userManager.getUserByName (um : userManager) (name : String) : Except String User :=
  match um.knownUserNames.get name with
  | some id => .ok (um.knownUsers.getD id User.zero)
  | none => .error ("User with Name " ++ name ++ " not known")

def userManager.getUserNameByID (um : userManager) (id : String) : Except String String :=
  match um.knownUserIDs.get id with
  | some name => .ok name
  | none => .error ("User with ID " ++ id ++ " not known")

def userManager.getUserIDByName (um : userManager) (name : String) : Except String String :=
  match um.knownUserNames.get name with
  | some id => .ok id
  | none => .error ("User with Name " ++ name ++ " not known")

def userManager.isUserIDKnown (um : userManager) (id : String) : Bool :=
  (um.knownUserIDs.get id).isSome

def userManager.isUserNameKnown (um : userManager) (name : String) : Bool :=
  (um.knownUserNames.get name).isSome

def userManager.Len (um : userManager) : Nat :=
  um.knownUsers.length

/-- A run of `addKnownUser` calls, oldest first. -/
def userManager.addAll (um : userManager) (us : List User) : userManager :=
  us.foldl userManager.addKnownUser um

end Slack

/-! ## plugin/giveawayplugin/config.go -/

namespace Giveaway

/-- The `botconfig.PluginConfig` handed to a plugin: its type tag (the Go
field `Type`, spelled `Typ` here) and a loosely typed key/value table. -/
structure PluginConfig where
  Typ : String
  Config : GoMap Value
  deriving DecidableEq, Repr

structure config where
  Mods : List String
  OnlyMods : Bool
  deriving DecidableEq, Repr

/-- The type assertion `x.([]string)` in comma-ok form: the value and `ok`;
a failed assertion yields the zero value, the nil slice. -/
def assertStrings : Option Value → List String × Bool
  | some (Value.strs l) => (l, true)
  | _ => ([], false)

/-- The type assertion `x.(bool)` in comma-ok form. -/
def assertBool : Option Value → Bool × Bool
  | some (Value.bool b) => (b, true)
  | _ => (false, false)

def parseConfig (c : PluginConfig) : Except String config :=
  if c.Typ ≠ "giveaway" then
    .error "Not a Giveaway Plugin config"
  else
    let mods := (assertStrings (c.Config.get "mods")).1
    let onlyMods := (assertBool (c.Config.get "onlymods")).1
    if onlyMods && mods.length == 0 then
      .error "Cannot have a Giveaway Plugin configuration with OnlyMods = true but no Mods defined"
    else
      .ok { Mods := mods, OnlyMods := onlyMods }

/-- The `mods` sequence of a configuration as the claim reads it: empty when
the key is missing or is not a sequence of strings. -/
def modsOf (c : PluginConfig) : List String :=
  match c.Config.get "mods" with
  | some (Value.strs l) => l
  | _ => []

/-- The `onlymods` flag as the claim reads it: false when the key is missing
or is not a boolean. -/
def onlyModsOf (c : PluginConfig) : Bool :=
  match c.Config.get "onlymods" with
  | some (Value.bool b) => b
  | _ => false

end Giveaway

/-! ## discord/handleevents.go -/

namespace Discord

/-- The `events.MessageType` enumeration. -/
inductive MessageType where
  | MESSAGE
  | WHISPER
  deriving DecidableEq, Repr

/-- The `events.ReceiveMessage` record (the Go field `Type` is spelled `Typ`). -/
structure ReceiveMessage where
  Typ : MessageType
  Ident : String
  Content : String
  deriving DecidableEq, Repr

structure user where
  ID : String
  Username : String
  deriving DecidableEq, Repr

structure messageCreate where
  Author : user
  Content : String
  Timestamp : String
  ChannelID : String
  deriving DecidableEq, Repr

structure channelCreate where
  ID : String
  Recipients : List user
  deriving DecidableEq, Repr

structure ready where
  User : user
  deriving DecidableEq, Repr

structure guildCreate where
  ID : String
  Name : String
  MemberCount : Nat
  Channels : List channelCreate
  deriving DecidableEq, Repr

structure guild where
  channel : List channelCreate
  memberCount : Nat
  name : String
  snowflakeID : String
  deriving DecidableEq, Repr

/-- A plugin's private channel of `ReceiveMessage`s, a Go `chan`: `cap` buffer
slots (0 for an unbuffered channel), `buf` the queued messages, oldest first,
`parked` the number of plugin receivers blocked in `<-ch`, and `taken` the
messages receivers have got out of the channel so far, oldest first. -/
structure PluginChan where
  cap : Nat
  buf : List ReceiveMessage
  parked : Nat
  taken : List ReceiveMessage
  deriving DecidableEq, Repr

/-- A receiver can only be blocked on a channel whose buffer is empty. -/
def PluginChan.wellFormed (c : PluginChan) : Bool :=
  decide (c.parked = 0 ∨ c.buf = [])

/-- Whether a send on the channel can proceed at once: a receiver is waiting
for it, or the buffer has a free slot. -/
def PluginChan.canAccept (c : PluginChan) : Bool :=
  decide (0 < c.parked ∨ c.buf.length < c.cap)

/-- The non-blocking send `select { case ch <- m: default: }`: the message is
handed to a waiting receiver if there is one, else queued if the buffer has
room, else the `default` branch runs and the message is dropped. -/
def PluginChan.trySend (c : PluginChan) (m : ReceiveMessage) : PluginChan :=
  if 0 < c.parked then
    { c with parked := c.parked - 1, taken := c.taken ++ [m] }
  else if c.buf.length < c.cap then
    { c with buf := c.buf ++ [m] }
  else
    c

/-- A plugin receiver executing `<-ch`: it takes the oldest queued message,
or blocks on the empty channel until a send hands it one. -/
def PluginChan.recv (c : PluginChan) : PluginChan :=
  match c.buf with
  | m :: rest => { c with buf := rest, taken := c.taken ++ [m] }
  | [] => { c with parked := c.parked + 1 }

/-- Every message the channel has accepted so far, oldest first: those already
taken by the plugin, then those still queued for it. -/
def PluginChan.accepted (c : PluginChan) : List ReceiveMessage :=
  c.taken ++ c.buf

/-- The discord bot state touched by the event handlers; `receivers` is keyed
by the plugin (its name). -/
structure Bot where
  ownSnowflakeID : String
  guilds : GoMap guild
  guildNameToID : GoMap String
  knownChannels : GoMap channelCreate
  receivers : GoMap PluginChan
  deriving DecidableEq, Repr

/-- A raw event payload, `map[string]interface{}`. -/
abbrev Payload := GoMap Value

/-- The event decoders (`decodeMessageCreate`, ...), defined outside the
handlers file: each maps a payload to a decoded event or an error. Events
that are only logged are kept in printed form. -/
structure Decoders where
  decodeMessageCreate : Payload → Except String messageCreate
  decodeReady : Payload → Except String ready
  decodeGuildCreate : Payload → Except String guildCreate
  decodeChannelCreate : Payload → Except String channelCreate
  decodePresenceUpdate : Payload → Except String String
  decodeTypingStart : Payload → Except String String
  decodeMessageReactionAdd : Payload → Except String String
  decodeMessageReactionRemove : Payload → Except String String
  decodeMessageDelete : Payload → Except String String
  decodeMessageUpdate : Payload → Except String String
  decodeChannelPinsUpdate : Payload → Except String String
  decodeGuildMemberUpdate : Payload → Except String String
  decodePresencesReplace : Payload → Except String String

def Bot.getMessageType (b : Bot) (mc : messageCreate) : MessageType :=
  match b.knownChannels.get mc.ChannelID with
  | some val => if val.Recipients.length = 1 then MessageType.WHISPER else MessageType.MESSAGE
  | none => MessageType.MESSAGE

/-- The message built in the first line of `dispatchMessage`. -/
def Bot.receiveMessageOf (b : Bot) (mc : messageCreate) : ReceiveMessage :=
  { Typ := b.getMessageType mc, Ident := mc.Author.ID, Content := mc.Content }

def Bot.dispatchMessage (b : Bot) (newMessageCreate : messageCreate) : Bot :=
  let receiveMessage := b.receiveMessageOf newMessageCreate
  { b with receivers := b.receivers.mapValues (fun pluginChannel => pluginChannel.trySend receiveMessage) }

def Bot.handleMessageCreate (D : Decoders) (b : Bot) (data : Payload) : Bot :=
  match D.decodeMessageCreate data with
  | .error _ => b
  | .ok newMessageCreate =>
    let snowflakeID := newMessageCreate.Author.ID
    if snowflakeID ≠ b.ownSnowflakeID then b.dispatchMessage newMessageCreate else b

def Bot.handleReady (D : Decoders) (b : Bot) (data : Payload) : Bot :=
  match D.decodeReady data with
  | .error _ => b
  | .ok newReady => { b with ownSnowflakeID := newReady.User.ID }

def Bot.handleGuildCreate (D : Decoders) (b : Bot) (data : Payload) : Bot :=
  match D.decodeGuildCreate data with
  | .error _ => b
  | .ok newGuildCreate =>
    let newGuild : guild :=
      { channel := newGuildCreate.Channels
        memberCount := newGuildCreate.MemberCount
        name := newGuildCreate.Name
        snowflakeID := newGuildCreate.ID }
    { b with
      guilds := b.guilds.set newGuild.name newGuild
      guildNameToID := b.guildNameToID.set newGuild.name newGuild.snowflakeID }

def Bot.handlePresenceUpdate (D : Decoders) (b : Bot) (data : Payload) : Bot :=
  match D.decodePresenceUpdate data with
  | .error _ => b
  | .ok _ => b

def Bot.handlePresenceReplace (b : Bot) (_data : Payload) : Bot := b

def Bot.handleTypingStart (D : Decoders) (b : Bot) (data : Payload) : Bot :=
  match D.decodeTypingStart data with
  | .error _ => b
  | .ok _ => b

def Bot.addKnownChannel (b : Bot) (channel : channelCreate) : Bot :=
  { b with knownChannels := b.knownChannels.set channel.ID channel }

def Bot.handleChannelCreate (D : Decoders) (b : Bot) (data : Payload) : Bot :=
  match D.decodeChannelCreate data with
  | .error _ => b
  | .ok newChannelCreate => b.addKnownChannel newChannelCreate

def Bot.handleMessageReactionAdd (D : Decoders) (b : Bot) (data : Payload) : Bot :=
  match D.decodeMessageReactionAdd data with
  | .error _ => b
  | .ok _ => b

def Bot.handleMessageReactionRemove (D : Decoders) (b : Bot) (data : Payload) : Bot :=
  match D.decodeMessageReactionRemove data with
  | .error _ => b
  | .ok _ => b

def Bot.handleMessageDelete (D : Decoders) (b : Bot) (data : Payload) : Bot :=
  match D.decodeMessageDelete data with
  | .error _ => b
  | .ok _ => b

def Bot.handleMessageUpdate (D : Decoders) (b : Bot) (data : Payload) : Bot :=
  match D.decodeMessageUpdate data with
  | .error _ => b
  | .ok _ => b

def Bot.handleChannelPinsUpdate (D : Decoders) (b : Bot) (data : Payload) : Bot :=
  match D.decodeChannelPinsUpdate data with
  | .error _ => b
  | .ok _ => b

def Bot.handleGuildMemberUpdate (D : Decoders) (b : Bot) (data : Payload) : Bot :=
  match D.decodeGuildMemberUpdate data with
  | .error _ => b
  | .ok _ => b

def Bot.handlePresencesReplace (D : Decoders) (b : Bot) (data : Payload) : Bot :=
  match D.decodePresencesReplace data with
  | .error _ => b
  | .ok _ => b

def Bot.handleUnknown (b : Bot) (_data : Payload) : Bot := b

/-! ### The handlers as one family -/

/-- The handlers of the file that start by decoding their payload. -/
inductive Handler where
  | messageCreate
  | ready
  | guildCreate
  | presenceUpdate
  | typingStart
  | channelCreate
  | messageReactionAdd
  | messageReactionRemove
  | messageDelete
  | messageUpdate
  | channelPinsUpdate
  | guildMemberUpdate
  | presencesReplace
  deriving DecidableEq, Repr

/-- Whether the decoder called by the handler returns an error on the payload. -/
def Handler.decodeFails (D : Decoders) (h : Handler) (data : Payload) : Bool :=
  match h with
  | .messageCreate => !(D.decodeMessageCreate data).toBool
  | .ready => !(D.decodeReady data).toBool
  | .guildCreate => !(D.decodeGuildCreate data).toBool
  | .presenceUpdate => !(D.decodePresenceUpdate data).toBool
  | .typingStart => !(D.decodeTypingStart data).toBool
  | .channelCreate => !(D.decodeChannelCreate data).toBool
  | .messageReactionAdd => !(D.decodeMessageReactionAdd data).toBool
  | .messageReactionRemove => !(D.decodeMessageReactionRemove data).toBool
  | .messageDelete => !(D.decodeMessageDelete data).toBool
  | .messageUpdate => !(D.decodeMessageUpdate data).toBool
  | .channelPinsUpdate => !(D.decodeChannelPinsUpdate data).toBool
  | .guildMemberUpdate => !(D.decodeGuildMemberUpdate data).toBool
  | .presencesReplace => !(D.decodePresencesReplace data).toBool

/-- The handler function selected by the tag. -/
def Handler.run (D : Decoders) (h : Handler) (b : Bot) (data : Payload) : Bot :=
  match h with
  | .messageCreate => b.handleMessageCreate D data
  | .ready => b.handleReady D data
  | .guildCreate => b.handleGuildCreate D data
  | .presenceUpdate => b.handlePresenceUpdate D data
  | .typingStart => b.handleTypingStart D data
  | .channelCreate => b.handleChannelCreate D data
  | .messageReactionAdd => b.handleMessageReactionAdd D data
  | .messageReactionRemove => b.handleMessageReactionRemove D data
  | .messageDelete => b.handleMessageDelete D data
  | .messageUpdate => b.handleMessageUpdate D data
  | .channelPinsUpdate => b.handleChannelPinsUpdate D data
  | .guildMemberUpdate => b.handleGuildMemberUpdate D data
  | .presencesReplace => b.handlePresencesReplace D data

/-- The same payload handled `n` times in a row by `handleMessageCreate`. -/
def Bot.handleMessageCreateTimes (D : Decoders) (b : Bot) (data : Payload) : Nat → Bot
  | 0 => b
  | n + 1 => Bot.handleMessageCreateTimes D (b.handleMessageCreate D data) data n

/-! ### Runs of the dispatcher against draining plugins -/

/-- One step of a run: the bot dispatches an inbound message, or a receiver
of the named plugin executes `<-ch` on the plugin's channel. -/
inductive Step where
  | inbound (mc : messageCreate)
  | drain (plugin : String)
  deriving DecidableEq, Repr

/-- A receiver of the named plugin executes `<-ch`. -/
def Bot.drain (b : Bot) (plugin : String) : Bot :=
  match b.receivers.get plugin with
  | some c => { b with receivers := b.receivers.set plugin c.recv }
  | none => b

def Bot.step (b : Bot) : Step → Bot
  | .inbound mc => b.dispatchMessage mc
  | .drain plugin => b.drain plugin

def Bot.runSteps (b : Bot) (ss : List Step) : Bot :=
  ss.foldl Bot.step b

/-- The inbound messages of a run, in receipt order. -/
def inbounds : List Step → List messageCreate
  | [] => []
  | .inbound mc :: ss => mc :: inbounds ss
  | .drain _ :: ss => inbounds ss

/-- The named plugin is registered and its channel can accept at every
dispatch of the run. -/
def Bot.acceptsThroughout (b : Bot) (plugin : String) : List Step → Bool
  | [] => (b.receivers.get plugin).isSome
  | .inbound mc :: ss =>
    (match b.receivers.get plugin with
      | some c => c.canAccept
      | none => false) && Bot.acceptsThroughout (b.step (.inbound mc)) plugin ss
  | .drain p :: ss => Bot.acceptsThroughout (b.step (.drain p)) plugin ss

/-- No receiver of the named plugin executes `<-ch` during the run. -/
def neverDrains (plugin : String) : List Step → Bool
  | [] => true
  | .inbound _ :: ss => neverDrains plugin ss
  | .drain p :: ss => decide (p ≠ plugin) && neverDrains plugin ss

/-! ### A concrete decoder family for the examples -/

/-- A string field of a payload, or an error when it is absent or not a string. -/
def payloadField (data : Payload) (key : String) : Except String String :=
  match data.get key with
  | some (Value.str s) => .ok s
  | _ => .error ("no string field " ++ key)

/-- Decoders that read flat payloads: `author`, `content`, `channel_id` for a
message, `user` for the ready event, `id` and `name` for guilds and channels,
`recipient` for the single recipient of a channel. -/
def exampleDecoders : Decoders where
  decodeMessageCreate data :=
    match payloadField data "author", payloadField data "content",
        payloadField data "channel_id" with
    | .ok a, .ok c, .ok ch => .ok ⟨⟨a, a⟩, c, "", ch⟩
    | _, _, _ => .error "bad MESSAGE_CREATE"
  decodeReady data :=
    match payloadField data "user" with
    | .ok u => .ok ⟨⟨u, u⟩⟩
    | .error e => .error e
  decodeGuildCreate data :=
    match payloadField data "id", payloadField data "name" with
    | .ok i, .ok n => .ok ⟨i, n, 0, []⟩
    | _, _ => .error "bad GUILD_CREATE"
  decodeChannelCreate data :=
    match payloadField data "id", payloadField data "recipient" with
    | .ok i, .ok r => .ok ⟨i, [⟨r, r⟩]⟩
    | _, _ => .error "bad CHANNEL_CREATE"
  decodePresenceUpdate data := payloadField data "user"
  decodeTypingStart data := payloadField data "user"
  decodeMessageReactionAdd data := payloadField data "id"
  decodeMessageReactionRemove data := payloadField data "id"
  decodeMessageDelete data := payloadField data "id"
  decodeMessageUpdate data := payloadField data "id"
  decodeChannelPinsUpdate data := payloadField data "channel_id"
  decodeGuildMemberUpdate data := payloadField data "user"
  decodePresencesReplace data := payloadField data "user"

/-- A bot that knows the direct-message channel `dm` and has three plugins:
`quotes` with an empty two-slot channel, `giveaway` with a full one-slot
channel nobody reads, and `version` with an unbuffered channel on which its
receiver is waiting. -/
def exampleBot : Bot :=
  { ownSnowflakeID := "B"
    guilds := []
    guildNameToID := []
    knownChannels := [("dm", ⟨"dm", [⟨"U7", "U7"⟩]⟩)]
    receivers :=
      [("quotes", ⟨2, [], 0, []⟩),
        ("giveaway", ⟨1, [⟨MessageType.MESSAGE, "U1", "old"⟩], 0, []⟩),
        ("version", ⟨0, [], 1, []⟩)] }

/-- A run of three inbound messages in which the receiver of `version` comes
back for the next message after each dispatch. -/
def exampleRun : List Step :=
  [Step.inbound ⟨⟨"U7", "U7"⟩, "one", "", "dm"⟩, Step.drain "version",
    Step.inbound ⟨⟨"U8", "U8"⟩, "two", "", "general"⟩, Step.drain "version",
    Step.inbound ⟨⟨"U7", "U7"⟩, "three", "", "dm"⟩]

end Discord

/-! ## matrix/bot.go -/

namespace Matrix

structure loginResponse where
  AccessToken : String
  HomeServer : String
  UserID : String
  DeviceID : String
  deriving DecidableEq, Repr

/-- The world outside the bot: the HTTP round trip of `apiCall` (request
construction, `client.Do` and reading the body, any of which may fail) as a
function of method, URL and body, and `json.Unmarshal` into a `loginResponse`. -/
structure Env where
  http : String → String → String → Except String String
  unmarshal : String → Except String loginResponse

/-- A Go channel as far as its life cycle goes: whether `make` has run and how
often `close` has been called on it. -/
structure Chan where
  made : Bool
  closes : Nat
  deriving DecidableEq, Repr

/-- The nil channel of a zero-valued struct. -/
def Chan.zero : Chan := { made := false, closes := 0 }

/-- The result of `make(chan T)`. -/
def Chan.make : Chan := { made := true, closes := 0 }

def Chan.isClosed (c : Chan) : Bool := decide (0 < c.closes)

/-- A goroutine of the bot: not yet started, running, or returned. -/
inductive Loop where
  | idle
  | running
  | exited
  deriving DecidableEq, Repr

/-- The `botinterface.BotStatus` record. -/
structure BotStatus where
  Running : Bool
  deriving DecidableEq, Repr

/-- The matrix bot: the fields of the Go struct, then the three goroutines
launched by `Start` and the `doneChannel` handed to it. -/
structure Bot where
  receiveMessageChan : Chan
  sendMessageChan : Chan
  commandChan : Chan
  server : String
  token : String
  pollingDone : Chan
  pollingInterval : Nat
  knownPlugins : List String
  pollingLoop : Loop
  sendChannelReceiver : Loop
  commandChannelReceiver : Loop
  doneChannel : Chan
  deriving DecidableEq, Repr

/-- The struct literal `Bot{server: server}`. -/
def Bot.new (server : String) : Bot :=
  { receiveMessageChan := Chan.zero, sendMessageChan := Chan.zero, commandChan := Chan.zero
    server := server, token := "", pollingDone := Chan.zero, pollingInterval := 0
    knownPlugins := [], pollingLoop := .idle, sendChannelReceiver := .idle
    commandChannelReceiver := .idle, doneChannel := Chan.zero }

def Bot.apiCall (env : Env) (b : Bot) (path method body : String) : Except String String :=
  env.http method (b.server ++ "/_matrix" ++ path) body

def Bot.login (env : Env) (b : Bot) (username password : String) : Except String String :=
  match b.apiCall env "/client/r0/login" "POST"
      ("\x7b\"type\":\"m.login.password\", \"user\":\"" ++ username ++
        "\", \"password\":\"" ++ password ++ "\"\x7d") with
  | .error err => .error ("apiCall failed: " ++ err)
  | .ok response =>
    match env.unmarshal response with
    | .error err => .error ("json unmarshal failed: " ++ err)
    | .ok channelResponseData =>
      if channelResponseData.AccessToken.length > 0 then
        .ok channelResponseData.AccessToken
      else
        .error "could not login"

/-- The room join; the bot itself is not changed, only an error may come back. -/
def Bot.connectToMatrixServer (env : Env) (b : Bot) : Except String Unit :=
  match b.apiCall env
      ("/client/r0/join/!cJQhJDXTxLzZeuoHzw:matrix.abyle.org?access_token=" ++ b.token)
      "POST" "\x7b\x7d" with
  | .error err => .error ("apiCall failed: " ++ err)
  | .ok _ => .ok ()

/-- `CreateMatrixBot`: the token is logged in for or taken as given; the join
is called as a statement, its result dropped; then the channels are made. -/
def CreateMatrixBot (env : Env) (server username password token : String) :
    Except String Bot :=
  let b := Bot.new server
  let tokenSet : Except String Bot :=
    if token.length = 0 then
      match b.login env username password with
      | .error err => .error err
      | .ok token => .ok { b with token := token }
    else
      .ok { b with token := token }
  match tokenSet with
  | .error err => .error err
  | .ok b =>
    let _ := b.connectToMatrixServer env
    .ok { b with
          pollingDone := Chan.make
          pollingInterval := 1000
          receiveMessageChan := Chan.make
          sendMessageChan := Chan.make
          commandChan := Chan.make }

/-- The three `go` statements of `Start`. -/
def Bot.Start (b : Bot) (doneChannel : Chan) : Bot :=
  { b with
    pollingLoop := .running
    sendChannelReceiver := .running
    commandChannelReceiver := .running
    doneChannel := doneChannel }

/-- The `for ... range ch` receivers: such a loop returns once its channel is
closed, and not before. -/
def Bot.settle (b : Bot) : Bot :=
  { b with
    sendChannelReceiver :=
      if b.sendChannelReceiver = .running ∧ b.sendMessageChan.isClosed then .exited
      else b.sendChannelReceiver
    commandChannelReceiver :=
      if b.commandChannelReceiver = .running ∧ b.commandChan.isClosed then .exited
      else b.commandChannelReceiver }

/-- `Stop`: the send on the unbuffered `pollingDone` completes only when the
polling loop is there to receive it; the loop then returns and its deferred
`close(doneChannel)` runs; last the deferred `close(b.receiveMessageChan)`
runs. The receivers are then left to run (`settle`). An error stands for a
call that never returns or panics. -/
def Bot.Stop (b : Bot) : Except String Bot :=
  if b.pollingLoop ≠ .running then
    .error "blocked: no receiver on pollingDone"
  else if b.receiveMessageChan.made = false ∨ b.receiveMessageChan.isClosed then
    .error "panic: close of nil or closed channel"
  else
    .ok (Bot.settle
      { b with
        pollingLoop := .exited
        doneChannel := { b.doneChannel with closes := b.doneChannel.closes + 1 }
        receiveMessageChan :=
          { b.receiveMessageChan with closes := b.receiveMessageChan.closes + 1 } })

def Bot.Status (_b : Bot) : BotStatus :=
  { Running := true }

/-- The lifecycle state the bot is in, read off its goroutines: RUNNING when
all three loops run, STOPPED when all three have returned. -/
def Bot.isRunning (b : Bot) : Bool :=
  decide (b.pollingLoop = .running ∧ b.sendChannelReceiver = .running ∧
    b.commandChannelReceiver = .running)

def Bot.isStopped (b : Bot) : Bool :=
  decide (b.pollingLoop = .exited ∧ b.sendChannelReceiver = .exited ∧
    b.commandChannelReceiver = .exited)

/-! ### Two concrete worlds for the examples -/

/-- A server that answers every call; the login answer carries the token `tok`. -/
def onlineEnv : Env where
  http _ _ _ := .ok "answer"
  unmarshal _ := .ok ⟨"tok", "matrix.example", "@bot:matrix.example", "DEV"⟩

/-- A server that cannot be reached: every call fails in transport. -/
def offlineEnv : Env where
  http _ _ _ := .error "connection refused"
  unmarshal _ := .error "unexpected end of JSON input"

end Matrix

/-! ## Lemmas on Go maps -/

namespace GoMap

theorem get_erase_ne {V : Type} (m : GoMap V) (k k' : String) (h : k' ≠ k) :
    get (erase m k) k' = get m k' := by
  induction m with
  | nil => rfl
  | cons kv rest ih =>
    obtain ⟨a, v⟩ := kv
    by_cases hak : a = k
    · subst hak
      simp [erase, get, h, ih]
    · by_cases hk : k' = a
      · simp [erase, get, hak, hk]
      · simp [erase, get, hak, hk, ih]

theorem get_erase_self {V : Type} (m : GoMap V) (k : String) :
    get (erase m k) k = none := by
  induction m with
  | nil => rfl
  | cons kv rest ih =>
    obtain ⟨a, v⟩ := kv
    by_cases hak : a = k
    · simp [erase, hak, ih]
    · have hka : ¬ k = a := fun h => hak h.symm
      simp [erase, get, hak, hka, ih]

theorem get_set_self {V : Type} (m : GoMap V) (k : String) (v : V) :
    get (set m k v) k = some v := by
  simp [set, get]

theorem get_set_ne {V : Type} (m : GoMap V) (k k' : String) (v : V) (h : k' ≠ k) :
    get (set m k v) k' = get m k' := by
  simp [set, get, h, get_erase_ne m k k' h]

theorem get_mapValues {V : Type} (f : V → V) (m : GoMap V) (k : String) :
    get (mapValues f m) k = (get m k).map f := by
  induction m with
  | nil => rfl
  | cons kv rest ih =>
    obtain ⟨a, v⟩ := kv
    by_cases hk : k = a
    · simp [mapValues, get, hk]
    · simp [mapValues, get, hk, ih]

end GoMap

/-! ## The user directory -/

namespace Slack

theorem addKnownUser_knownUsers_other (um : userManager) (v : User) (id : String)
    (h : v.ID ≠ id) :
    (um.addKnownUser v).knownUsers.get id = um.knownUsers.get id := by
  simp [userManager.addKnownUser, GoMap.get_set_ne _ _ _ _ (Ne.symm h)]

theorem addKnownUser_knownUserIDs_other (um : userManager) (v : User) (id : String)
    (h : v.ID ≠ id) :
    (um.addKnownUser v).knownUserIDs.get id = um.knownUserIDs.get id := by
  simp [userManager.addKnownUser, GoMap.get_set_ne _ _ _ _ (Ne.symm h)]

theorem addKnownUser_knownUserNames_other (um : userManager) (v : User) (name : String)
    (h : v.Name ≠ name) :
    (um.addKnownUser v).knownUserNames.get name = um.knownUserNames.get name := by
  simp [userManager.addKnownUser, GoMap.get_set_ne _ _ _ _ (Ne.symm h)]

theorem addAll_keeps (um : userManager) (u : User) (later : List User)
    (h : ∀ v ∈ later, v.ID ≠ u.ID ∧ v.Name ≠ u.Name) :
    (um.addAll later).knownUsers.get u.ID = um.knownUsers.get u.ID ∧
      (um.addAll later).knownUserNames.get u.Name = um.knownUserNames.get u.Name := by
  induction later generalizing um with
  | nil => exact ⟨rfl, rfl⟩
  | cons v rest ih =>
    have hv := h v (List.mem_cons_self v rest)
    have hrest : ∀ w ∈ rest, w.ID ≠ u.ID ∧ w.Name ≠ u.Name :=
      fun w hw => h w (List.mem_cons_of_mem v hw)
    have step := ih (um.addKnownUser v) hrest
    simp only [userManager.addAll, List.foldl_cons] at step ⊢
    rw [step.1, step.2, addKnownUser_knownUsers_other um v u.ID hv.1,
      addKnownUser_knownUserNames_other um v u.Name hv.2]
    exact ⟨rfl, rfl⟩

/-- C1: after `addKnownUser(u)` and any further `addKnownUser` calls that
reuse neither the ID nor the Name of `u`, `getUserByID(u.ID)` succeeds with a
user whose Name is `u.Name` (it is `u` itself) and `getUserIDByName(u.Name)`
succeeds with `u.ID`. The empty list of further calls is the state right
after the insertion. -/
theorem lookups_inverse_after_add (um : userManager) (u : User) (later : List User)
    (h : ∀ v ∈ later, v.ID ≠ u.ID ∧ v.Name ≠ u.Name) :
    (∃ found, ((um.addKnownUser u).addAll later).getUserByID u.ID = .ok found ∧
        found.Name = u.Name ∧ found = u) ∧
      ((um.addKnownUser u).addAll later).getUserIDByName u.Name = .ok u.ID := by
  obtain ⟨h1, h2⟩ := addAll_keeps (um.addKnownUser u) u later h
  refine ⟨⟨u, ?_, rfl, rfl⟩, ?_⟩
  · have e : (um.addKnownUser u).knownUsers.get u.ID = some u := by
      simp [userManager.addKnownUser, GoMap.get_set_self]
    simp only [userManager.getUserByID, h1, e]
  · have e : (um.addKnownUser u).knownUserNames.get u.Name = some u.ID := by
      simp [userManager.addKnownUser, GoMap.get_set_self]
    simp only [userManager.getUserIDByName, h2, e]

/-- Witness for C1: on the empty directory, add `U1/alice`, then `U2/bob` and `U3/carol`. -/
theorem lookups_inverse_after_add_witness :
    (∃ found, ((newUserManager.addKnownUser ⟨"U1", "alice"⟩).addAll
          [⟨"U2", "bob"⟩, ⟨"U3", "carol"⟩]).getUserByID "U1" = .ok found ∧
        found.Name = "alice" ∧ found = ⟨"U1", "alice"⟩) ∧
      ((newUserManager.addKnownUser ⟨"U1", "alice"⟩).addAll
          [⟨"U2", "bob"⟩, ⟨"U3", "carol"⟩]).getUserIDByName "alice" = .ok "U1" :=
  lookups_inverse_after_add newUserManager ⟨"U1", "alice"⟩ [⟨"U2", "bob"⟩, ⟨"U3", "carol"⟩]
    (by decide)

/-- C9: last write wins on a name collision. After `addKnownUser(a)` and then
`addKnownUser(b)` with the same Name and different IDs, the name resolves to
`b` (`getUserIDByName`, `getUserByName`), while the lookups by the ID of `a`
still answer with `a` and its name (`getUserNameByID`, `getUserByID`). -/
theorem name_collision_last_write_wins (um : userManager) (a b : User)
    (hName : a.Name = b.Name) (hID : a.ID ≠ b.ID) :
    ((um.addKnownUser a).addKnownUser b).getUserIDByName a.Name = .ok b.ID ∧
      ((um.addKnownUser a).addKnownUser b).getUserByName a.Name = .ok b ∧
      ((um.addKnownUser a).addKnownUser b).getUserNameByID a.ID = .ok a.Name ∧
      ((um.addKnownUser a).addKnownUser b).getUserByID a.ID = .ok a := by
  have hba : b.ID ≠ a.ID := Ne.symm hID
  refine ⟨?_, ?_, ?_, ?_⟩
  · simp [userManager.getUserIDByName, userManager.addKnownUser, hName, GoMap.get_set_self]
  · simp [userManager.getUserByName, userManager.addKnownUser, hName, GoMap.get_set_self,
      GoMap.getD]
  · simp [userManager.getUserNameByID, userManager.addKnownUser,
      GoMap.get_set_ne _ _ _ _ hID, GoMap.get_set_self]
  · simp [userManager.getUserByID, userManager.addKnownUser,
      GoMap.get_set_ne _ _ _ _ hID, GoMap.get_set_self]

/-- Witness for C9: `U1/alice` then `U2/alice` on the empty directory. -/
theorem name_collision_last_write_wins_witness :
    ((newUserManager.addKnownUser ⟨"U1", "alice"⟩).addKnownUser
        ⟨"U2", "alice"⟩).getUserIDByName "alice" = .ok "U2" ∧
      ((newUserManager.addKnownUser ⟨"U1", "alice"⟩).addKnownUser
        ⟨"U2", "alice"⟩).getUserByName "alice" = .ok ⟨"U2", "alice"⟩ ∧
      ((newUserManager.addKnownUser ⟨"U1", "alice"⟩).addKnownUser
        ⟨"U2", "alice"⟩).getUserNameByID "U1" = .ok "alice" ∧
      ((newUserManager.addKnownUser ⟨"U1", "alice"⟩).addKnownUser
        ⟨"U2", "alice"⟩).getUserByID "U1" = .ok ⟨"U1", "alice"⟩ :=
  name_collision_last_write_wins newUserManager ⟨"U1", "alice"⟩ ⟨"U2", "alice"⟩ rfl (by decide)

end Slack

/-! ## The giveaway plugin configuration -/

namespace Giveaway

theorem assertStrings_fst (c : PluginConfig) :
    (assertStrings (c.Config.get "mods")).1 = modsOf c := by
  unfold modsOf
  cases hv : c.Config.get "mods" with
  | none => rfl
  | some v => cases v <;> rfl

theorem assertBool_fst (c : PluginConfig) :
    (assertBool (c.Config.get "onlymods")).1 = onlyModsOf c := by
  unfold onlyModsOf
  cases hv : c.Config.get "onlymods" with
  | none => rfl
  | some v => cases v <;> rfl

theorem parseConfig_eq (c : PluginConfig) :
    parseConfig c =
      if c.Typ ≠ "giveaway" then .error "Not a Giveaway Plugin config"
      else if onlyModsOf c = true ∧ modsOf c = [] then
        .error "Cannot have a Giveaway Plugin configuration with OnlyMods = true but no Mods defined"
      else .ok { Mods := modsOf c, OnlyMods := onlyModsOf c } := by
  unfold parseConfig
  simp only [assertStrings_fst, assertBool_fst]
  by_cases ht : c.Typ = "giveaway"
  · cases ho : onlyModsOf c <;> cases hm : modsOf c <;> simp [ht]
  · simp [ht]

/-- C2: `parseConfig` returns an error exactly when the type tag is not
`giveaway` or `onlymods` is true with an empty `mods` sequence (a missing or
wrongly typed `mods` reads as empty, a missing or wrongly typed `onlymods` as
false); otherwise it returns `config` with exactly those two values. The
three stated cases: `onlymods=true, mods=[]` is rejected,
`onlymods=true, mods=["alice"]` and `onlymods=false, mods=[]` are accepted. -/
theorem parseConfig_error_iff (c : PluginConfig) :
    ((∃ err, parseConfig c = .error err) ↔
        (c.Typ ≠ "giveaway" ∨ (onlyModsOf c = true ∧ modsOf c = []))) ∧
      (¬ (c.Typ ≠ "giveaway" ∨ (onlyModsOf c = true ∧ modsOf c = [])) →
        parseConfig c = .ok { Mods := modsOf c, OnlyMods := onlyModsOf c }) ∧
      (∃ err, parseConfig
        { Typ := "giveaway"
          Config := [("mods", Value.strs []), ("onlymods", Value.bool true)] } = .error err) ∧
      parseConfig
        { Typ := "giveaway"
          Config := [("mods", Value.strs ["alice"]), ("onlymods", Value.bool true)] } =
        .ok { Mods := ["alice"], OnlyMods := true } ∧
      parseConfig
        { Typ := "giveaway"
          Config := [("mods", Value.strs []), ("onlymods", Value.bool false)] } =
        .ok { Mods := [], OnlyMods := false } := by
  refine ⟨?_, ?_, ?_, ?_, ?_⟩
  · rw [parseConfig_eq]
    by_cases ht : c.Typ = "giveaway"
    · by_cases hb : onlyModsOf c = true ∧ modsOf c = []
      · simp [ht, hb]
      · simp [ht, hb]
    · simp [ht]
  · intro hgood
    rw [parseConfig_eq]
    have ht : ¬ c.Typ ≠ "giveaway" := fun h => hgood (Or.inl h)
    have hb : ¬ (onlyModsOf c = true ∧ modsOf c = []) := fun h => hgood (Or.inr h)
    simp [ht, hb]
  · exact ⟨_, rfl⟩
  · rfl
  · rfl

/-- Witness for C2: a configuration whose `mods` is not a `[]string` and whose
`onlymods` is missing is accepted with no mods and `OnlyMods = false`. -/
theorem parseConfig_error_iff_witness :
    parseConfig { Typ := "giveaway", Config := [("mods", Value.anys ["alice"])] } =
      .ok { Mods := [], OnlyMods := false } :=
  (parseConfig_error_iff
    { Typ := "giveaway", Config := [("mods", Value.anys ["alice"])] }).2.1 (by decide)

end Giveaway

/-! ## Classification, self-filter and decode failures of the discord bot -/

namespace Discord

/-- C3: `getMessageType` answers WHISPER exactly when the channel of the
message is a known channel whose `Recipients` has one entry, and MESSAGE in
every other case (known with zero or several recipients, or unknown); two bot
states with the same `knownChannels` classify alike. -/
theorem getMessageType_spec (b : Bot) (mc : messageCreate) :
    (b.getMessageType mc = MessageType.WHISPER ↔
        ∃ ch, b.knownChannels.get mc.ChannelID = some ch ∧ ch.Recipients.length = 1) ∧
      (b.getMessageType mc = MessageType.MESSAGE ↔
        ¬ ∃ ch, b.knownChannels.get mc.ChannelID = some ch ∧ ch.Recipients.length = 1) ∧
      (∀ b' : Bot, b'.knownChannels = b.knownChannels →
        b'.getMessageType mc = b.getMessageType mc) := by
  refine ⟨?_, ?_, ?_⟩
  · unfold Bot.getMessageType
    cases hk : b.knownChannels.get mc.ChannelID with
    | none => simp
    | some ch => by_cases hl : ch.Recipients.length = 1 <;> simp [hl]
  · unfold Bot.getMessageType
    cases hk : b.knownChannels.get mc.ChannelID with
    | none => simp
    | some ch => by_cases hl : ch.Recipients.length = 1 <;> simp [hl]
  · intro b' hsame
    simp [Bot.getMessageType, hsame]

/-- Witness for C3: the channel `dm` with the single recipient `U7` is a
whisper channel, also for a bot that differs in everything but `knownChannels`. -/
theorem getMessageType_spec_witness :
    Bot.getMessageType
        { ownSnowflakeID := "B", guilds := [], guildNameToID := []
          knownChannels := [("dm", ⟨"dm", [⟨"U7", "eve"⟩]⟩)]
          receivers := [("quotes", ⟨1, [], 0, []⟩)] }
        ⟨⟨"U7", "eve"⟩, "hi", "t0", "dm"⟩ =
      Bot.getMessageType
        { ownSnowflakeID := "", guilds := [], guildNameToID := []
          knownChannels := [("dm", ⟨"dm", [⟨"U7", "eve"⟩]⟩)], receivers := [] }
        ⟨⟨"U7", "eve"⟩, "hi", "t0", "dm"⟩ :=
  (getMessageType_spec
    { ownSnowflakeID := "", guilds := [], guildNameToID := []
      knownChannels := [("dm", ⟨"dm", [⟨"U7", "eve"⟩]⟩)], receivers := [] }
    ⟨⟨"U7", "eve"⟩, "hi", "t0", "dm"⟩).2.2
    { ownSnowflakeID := "B", guilds := [], guildNameToID := []
      knownChannels := [("dm", ⟨"dm", [⟨"U7", "eve"⟩]⟩)]
      receivers := [("quotes", ⟨1, [], 0, []⟩)] } rfl

theorem handleMessageCreate_self (D : Decoders) (b : Bot) (data : Payload)
    (mc : messageCreate) (hdec : D.decodeMessageCreate data = .ok mc)
    (hself : mc.Author.ID = b.ownSnowflakeID) :
    b.handleMessageCreate D data = b := by
  simp [Bot.handleMessageCreate, hdec, hself]

theorem handleMessageCreateTimes_self (D : Decoders) (b : Bot) (data : Payload)
    (mc : messageCreate) (hdec : D.decodeMessageCreate data = .ok mc)
    (hself : mc.Author.ID = b.ownSnowflakeID) (n : Nat) :
    Bot.handleMessageCreateTimes D b data n = b := by
  induction n with
  | zero => rfl
  | succ n ih =>
    simp only [Bot.handleMessageCreateTimes, handleMessageCreate_self D b data mc hdec hself, ih]

/-- C4: `handleReady` captures the bot's identity; a MESSAGE_CREATE payload
that decodes to a message whose `Author.ID` is `ownSnowflakeID` leaves the
bot, and with it every plugin channel, as it was, however often it is
handled; a decoded message from any other author is handed to
`dispatchMessage` once: the handler's result is that of one dispatch, every
registered plugin channel having been offered the message by one non-blocking
send. -/
theorem self_messages_filtered (D : Decoders) (b : Bot) (data : Payload)
    (mc : messageCreate) (hdec : D.decodeMessageCreate data = .ok mc) :
    (∀ (rdata : Payload) (r : ready), D.decodeReady rdata = .ok r →
        (b.handleReady D rdata).ownSnowflakeID = r.User.ID) ∧
      (mc.Author.ID = b.ownSnowflakeID →
        ∀ n : Nat, Bot.handleMessageCreateTimes D b data n = b ∧
          (Bot.handleMessageCreateTimes D b data n).receivers = b.receivers) ∧
      (mc.Author.ID ≠ b.ownSnowflakeID →
        b.handleMessageCreate D data = b.dispatchMessage mc ∧
          ∀ plugin : String,
            (b.handleMessageCreate D data).receivers.get plugin =
              (b.receivers.get plugin).map (fun c => c.trySend (b.receiveMessageOf mc))) := by
  refine ⟨?_, ?_, ?_⟩
  · intro rdata r hr
    simp [Bot.handleReady, hr]
  · intro hself n
    rw [handleMessageCreateTimes_self D b data mc hdec hself n]
    exact ⟨rfl, rfl⟩
  · intro hother
    have e : b.handleMessageCreate D data = b.dispatchMessage mc := by
      simp [Bot.handleMessageCreate, hdec, hother]
    refine ⟨e, fun plugin => ?_⟩
    rw [e]
    simp [Bot.dispatchMessage, GoMap.get_mapValues]

/-- Witness for C4: the bot `B` gets its own message twice, then one from `U7`. -/
theorem self_messages_filtered_witness :
    Bot.handleMessageCreateTimes exampleDecoders exampleBot
        [("author", Value.str "B"), ("content", Value.str "echo"),
          ("channel_id", Value.str "dm")] 2 = exampleBot ∧
      (exampleBot.handleMessageCreate exampleDecoders
        [("author", Value.str "U7"), ("content", Value.str "hi"),
          ("channel_id", Value.str "dm")]).receivers =
        [("quotes", ⟨2, [⟨MessageType.WHISPER, "U7", "hi"⟩], 0, []⟩),
          ("giveaway", ⟨1, [⟨MessageType.MESSAGE, "U1", "old"⟩], 0, []⟩),
          ("version", ⟨0, [], 0, [⟨MessageType.WHISPER, "U7", "hi"⟩]⟩)] :=
  ⟨((self_messages_filtered exampleDecoders exampleBot
        [("author", Value.str "B"), ("content", Value.str "echo"),
          ("channel_id", Value.str "dm")]
        ⟨⟨"B", "B"⟩, "echo", "", "dm"⟩ rfl).2.1 rfl 2).1,
    by
      rw [((self_messages_filtered exampleDecoders exampleBot
        [("author", Value.str "U7"), ("content", Value.str "hi"),
          ("channel_id", Value.str "dm")]
        ⟨⟨"U7", "U7"⟩, "hi", "", "dm"⟩ rfl).2.2 (by decide)).1]
      rfl⟩

theorem run_of_decodeFails (D : Decoders) (h : Handler) (b : Bot) (bad : Payload)
    (hbad : h.decodeFails D bad = true) : h.run D b bad = b := by
  cases h <;> simp only [Handler.decodeFails] at hbad <;> simp only [Handler.run]
  · unfold Bot.handleMessageCreate
    cases hd : D.decodeMessageCreate bad with
    | error _ => rfl
    | ok v => simp [hd, Except.toBool] at hbad
  · unfold Bot.handleReady
    cases hd : D.decodeReady bad with
    | error _ => rfl
    | ok v => simp [hd, Except.toBool] at hbad
  · unfold Bot.handleGuildCreate
    cases hd : D.decodeGuildCreate bad with
    | error _ => rfl
    | ok v => simp [hd, Except.toBool] at hbad
  · unfold Bot.handlePresenceUpdate
    cases D.decodePresenceUpdate bad <;> rfl
  · unfold Bot.handleTypingStart
    cases D.decodeTypingStart bad <;> rfl
  · unfold Bot.handleChannelCreate
    cases hd : D.decodeChannelCreate bad with
    | error _ => rfl
    | ok v => simp [hd, Except.toBool] at hbad
  · unfold Bot.handleMessageReactionAdd
    cases D.decodeMessageReactionAdd bad <;> rfl
  · unfold Bot.handleMessageReactionRemove
    cases D.decodeMessageReactionRemove bad <;> rfl
  · unfold Bot.handleMessageDelete
    cases D.decodeMessageDelete bad <;> rfl
  · unfold Bot.handleMessageUpdate
    cases D.decodeMessageUpdate bad <;> rfl
  · unfold Bot.handleChannelPinsUpdate
    cases D.decodeChannelPinsUpdate bad <;> rfl
  · unfold Bot.handleGuildMemberUpdate
    cases D.decodeGuildMemberUpdate bad <;> rfl
  · unfold Bot.handlePresencesReplace
    cases D.decodePresencesReplace bad <;> rfl

/-- C8: when the decoder of a handler returns an error on a payload, the
handler returns with the whole bot state (own identity, guilds, guild names,
known channels and every plugin channel) unchanged, so any handler run on any
later payload behaves as if the failed payload had never arrived. -/
theorem decode_failure_is_dropped (D : Decoders) (h : Handler) (b : Bot) (bad : Payload)
    (hbad : h.decodeFails D bad = true) :
    h.run D b bad = b ∧
      (h.run D b bad).ownSnowflakeID = b.ownSnowflakeID ∧
      (h.run D b bad).guilds = b.guilds ∧
      (h.run D b bad).guildNameToID = b.guildNameToID ∧
      (h.run D b bad).knownChannels = b.knownChannels ∧
      (h.run D b bad).receivers = b.receivers ∧
      ∀ (next : Handler) (good : Payload),
        next.run D (h.run D b bad) good = next.run D b good := by
  rw [run_of_decodeFails D h b bad hbad]
  exact ⟨rfl, rfl, rfl, rfl, rfl, rfl, fun _ _ => rfl⟩

/-- Witness for C8: a MESSAGE_CREATE payload without `author` is dropped by
the example bot. -/
theorem decode_failure_is_dropped_witness :
    Handler.run exampleDecoders Handler.messageCreate exampleBot
        [("content", Value.str "hi")] = exampleBot :=
  (decode_failure_is_dropped exampleDecoders Handler.messageCreate exampleBot
    [("content", Value.str "hi")] rfl).1

/-! ### Fan-out to the plugin channels -/

theorem step_knownChannels (b : Bot) (s : Step) :
    (b.step s).knownChannels = b.knownChannels := by
  cases s with
  | inbound mc => rfl
  | drain q =>
    simp only [Bot.step, Bot.drain]
    cases b.receivers.get q <;> rfl

theorem receiveMessageOf_congr (b b' : Bot) (h : b'.knownChannels = b.knownChannels)
    (mc : messageCreate) : b'.receiveMessageOf mc = b.receiveMessageOf mc := by
  simp [Bot.receiveMessageOf, Bot.getMessageType, h]

theorem map_receiveMessageOf_congr (b b' : Bot) (h : b'.knownChannels = b.knownChannels)
    (l : List messageCreate) : l.map b'.receiveMessageOf = l.map b.receiveMessageOf :=
  List.map_congr_left (fun mc _ => receiveMessageOf_congr b b' h mc)

theorem dispatchMessage_get (b : Bot) (mc : messageCreate) (plugin : String) :
    (b.dispatchMessage mc).receivers.get plugin =
      (b.receivers.get plugin).map (fun c => c.trySend (b.receiveMessageOf mc)) := by
  simp [Bot.dispatchMessage, GoMap.get_mapValues]

theorem drain_get_self (b : Bot) (plugin : String) :
    (b.drain plugin).receivers.get plugin = (b.receivers.get plugin).map PluginChan.recv := by
  unfold Bot.drain
  cases h : b.receivers.get plugin with
  | none => simp [h]
  | some c => simp [GoMap.get_set_self]

theorem drain_get_ne (b : Bot) (q plugin : String) (h : q ≠ plugin) :
    (b.drain q).receivers.get plugin = b.receivers.get plugin := by
  unfold Bot.drain
  cases b.receivers.get q with
  | none => rfl
  | some c => simp [GoMap.get_set_ne _ _ _ _ (Ne.symm h)]

theorem trySend_of_canAccept (c : PluginChan) (m : ReceiveMessage)
    (hwf : c.wellFormed = true) (hacc : c.canAccept = true) :
    (c.trySend m).accepted = c.accepted ++ [m] ∧ (c.trySend m).wellFormed = true := by
  simp only [PluginChan.wellFormed, PluginChan.canAccept, decide_eq_true_eq] at hwf hacc
  by_cases hp : 0 < c.parked
  · have hbuf : c.buf = [] := by
      rcases hwf with h | h
      · omega
      · exact h
    simp [PluginChan.trySend, PluginChan.accepted, PluginChan.wellFormed, hp, hbuf]
  · have hroom : c.buf.length < c.cap := by
      rcases hacc with h | h
      · exact absurd h hp
      · exact h
    have hz : c.parked = 0 := by omega
    simp [PluginChan.trySend, PluginChan.accepted, PluginChan.wellFormed, hroom, hz]

theorem recv_accepted (c : PluginChan) (hwf : c.wellFormed = true) :
    c.recv.accepted = c.accepted ∧ c.recv.wellFormed = true := by
  simp only [PluginChan.wellFormed, decide_eq_true_eq] at hwf
  cases hb : c.buf with
  | nil => simp [PluginChan.recv, PluginChan.accepted, PluginChan.wellFormed, hb]
  | cons m rest =>
    have hz : c.parked = 0 := by
      rcases hwf with h | h
      · exact h
      · rw [hb] at h; exact absurd h (List.cons_ne_nil m rest)
    simp [PluginChan.recv, PluginChan.accepted, PluginChan.wellFormed, hb, hz]

theorem runSteps_of_acceptsThroughout (plugin : String) (ss : List Step) :
    ∀ (b : Bot) (c : PluginChan), b.receivers.get plugin = some c →
      c.wellFormed = true → b.acceptsThroughout plugin ss = true →
      ((b.runSteps ss).receivers.get plugin).map PluginChan.accepted =
        some (c.accepted ++ (inbounds ss).map b.receiveMessageOf) := by
  induction ss with
  | nil => intro b c hget _ _; simp [Bot.runSteps, inbounds, hget]
  | cons s rest ih =>
    intro b c hget hwf hacc
    cases s with
    | inbound mc =>
      simp only [Bot.acceptsThroughout, hget, Bool.and_eq_true] at hacc
      obtain ⟨hnow, hlater⟩ := hacc
      obtain ⟨hsent, hwf'⟩ := trySend_of_canAccept c (b.receiveMessageOf mc) hwf hnow
      have hnext : (b.step (.inbound mc)).receivers.get plugin =
          some (c.trySend (b.receiveMessageOf mc)) := by
        simp [Bot.step, dispatchMessage_get, hget]
      have h := ih _ _ hnext hwf' hlater
      rw [map_receiveMessageOf_congr b _ (step_knownChannels b (.inbound mc)), hsent] at h
      simp only [Bot.runSteps, List.foldl_cons] at h ⊢
      rw [h]
      simp [inbounds]
    | drain q =>
      simp only [Bot.acceptsThroughout] at hacc
      by_cases hq : q = plugin
      · subst hq
        obtain ⟨hsame, hwf'⟩ := recv_accepted c hwf
        have hnext : (b.step (.drain q)).receivers.get q = some c.recv := by
          simp [Bot.step, drain_get_self, hget]
        have h := ih _ _ hnext hwf' hacc
        rw [map_receiveMessageOf_congr b _ (step_knownChannels b (.drain q)), hsame] at h
        simp only [Bot.runSteps, List.foldl_cons] at h ⊢
        rw [h]
        simp [inbounds]
      · have hnext : (b.step (.drain q)).receivers.get plugin = some c := by
          simp [Bot.step, drain_get_ne b q plugin hq, hget]
        have h := ih _ _ hnext hwf hacc
        rw [map_receiveMessageOf_congr b _ (step_knownChannels b (.drain q))] at h
        simp only [Bot.runSteps, List.foldl_cons] at h ⊢
        rw [h]
        simp [inbounds]

theorem runSteps_of_neverDrains (plugin : String) (ss : List Step) :
    ∀ (b : Bot) (c : PluginChan), b.receivers.get plugin = some c →
      c.parked = 0 → neverDrains plugin ss = true →
      (b.runSteps ss).receivers.get plugin =
        some { c with
          buf := c.buf ++ ((inbounds ss).map b.receiveMessageOf).take (c.cap - c.buf.length) } := by
  induction ss with
  | nil => intro b c hget _ _; simp [inbounds, Bot.runSteps, hget]
  | cons s rest ih =>
    intro b c hget hpark hnd
    cases s with
    | inbound mc =>
      simp only [neverDrains] at hnd
      by_cases hroom : c.buf.length < c.cap
      · have hnext : (b.step (.inbound mc)).receivers.get plugin =
            some { c with buf := c.buf ++ [b.receiveMessageOf mc] } := by
          simp [Bot.step, dispatchMessage_get, hget, PluginChan.trySend, hroom, hpark]
        have h := ih _ _ hnext hpark hnd
        rw [map_receiveMessageOf_congr b _ (step_knownChannels b (.inbound mc))] at h
        have hcap : c.cap - c.buf.length = (c.cap - (c.buf.length + 1)) + 1 := by omega
        simp only [Bot.runSteps, List.foldl_cons] at h ⊢
        rw [h, hcap]
        simp [inbounds, List.take_succ_cons]
      · have hnext : (b.step (.inbound mc)).receivers.get plugin = some c := by
          simp [Bot.step, dispatchMessage_get, hget, PluginChan.trySend, hroom, hpark]
        have h := ih _ _ hnext hpark hnd
        rw [map_receiveMessageOf_congr b _ (step_knownChannels b (.inbound mc))] at h
        have hcap : c.cap - c.buf.length = 0 := by omega
        simp only [Bot.runSteps, List.foldl_cons] at h ⊢
        rw [h, hcap]
        simp
    | drain q =>
      simp only [neverDrains, Bool.and_eq_true, decide_eq_true_eq] at hnd
      have hnext : (b.step (.drain q)).receivers.get plugin = some c := by
        simp [Bot.step, drain_get_ne b q plugin hnd.1, hget]
      have h := ih _ _ hnext hpark hnd.2
      rw [map_receiveMessageOf_congr b _ (step_knownChannels b (.drain q))] at h
      simp only [Bot.runSteps, List.foldl_cons] at h ⊢
      rw [h]
      simp [inbounds]

theorem step_get_congr (b b' : Bot) (plugin : String)
    (hk : b'.knownChannels = b.knownChannels)
    (hr : b'.receivers.get plugin = b.receivers.get plugin) (s : Step) :
    (b'.step s).receivers.get plugin = (b.step s).receivers.get plugin := by
  cases s with
  | inbound mc =>
    simp only [Bot.step, dispatchMessage_get, hr]
    cases b.receivers.get plugin with
    | none => rfl
    | some c => simp [receiveMessageOf_congr b b' hk mc]
  | drain q =>
    by_cases hq : q = plugin
    · subst hq
      simp only [Bot.step, drain_get_self, hr]
    · simp only [Bot.step, drain_get_ne _ q plugin hq, hr]

theorem runSteps_get_congr (plugin : String) (ss : List Step) :
    ∀ b b' : Bot, b'.knownChannels = b.knownChannels →
      b'.receivers.get plugin = b.receivers.get plugin →
      (b'.runSteps ss).receivers.get plugin = (b.runSteps ss).receivers.get plugin := by
  induction ss with
  | nil => intro b b' _ hr; exact hr
  | cons s rest ih =>
    intro b b' hk hr
    have hk' : (b'.step s).knownChannels = (b.step s).knownChannels := by
      rw [step_knownChannels, step_knownChannels, hk]
    have h := ih (b.step s) (b'.step s) hk' (step_get_congr b b' plugin hk hr s)
    simp only [Bot.runSteps, List.foldl_cons] at h ⊢
    exact h

/-- C5: with each plugin channel a Go channel of `cap` slots that also hands a
message to a receiver waiting on it, over any run of dispatches and plugin
receives: (1) a registered plugin whose channel can accept at every dispatch
ends the run having been given every inbound message, as `ReceiveMessage`
with Type = `getMessageType`, Ident = `Author.ID`, Content = `Content`, in
receipt order, after whatever its channel had accepted before; (2) a plugin
with no receiver on its channel during the whole run ends with its old queue
followed by the first messages that fit in the free slots, so at most its
capacity in all, nothing taken, the rest being dropped; (3) the channel a
plugin ends with depends on its own channel and the known channels only, not
on any other plugin; (4) each dispatch returns, having offered the message to
every registered channel by a send that leaves a channel that cannot accept
as it is. -/
theorem dispatch_fan_out (b : Bot) (ss : List Step) (plugin : String) :
    (∀ c : PluginChan, b.receivers.get plugin = some c → c.wellFormed = true →
        b.acceptsThroughout plugin ss = true →
        ((b.runSteps ss).receivers.get plugin).map PluginChan.accepted =
          some (c.accepted ++ (inbounds ss).map (fun mc =>
            { Typ := b.getMessageType mc, Ident := mc.Author.ID, Content := mc.Content }))) ∧
      (∀ c : PluginChan, b.receivers.get plugin = some c → c.parked = 0 →
        neverDrains plugin ss = true →
        (b.runSteps ss).receivers.get plugin =
            some { c with
              buf := c.buf ++ ((inbounds ss).map (fun mc =>
                { Typ := b.getMessageType mc, Ident := mc.Author.ID,
                  Content := mc.Content })).take (c.cap - c.buf.length) } ∧
          (((inbounds ss).map b.receiveMessageOf).take (c.cap - c.buf.length)).length ≤
            c.cap) ∧
      (∀ b' : Bot, b'.knownChannels = b.knownChannels →
        b'.receivers.get plugin = b.receivers.get plugin →
        (b'.runSteps ss).receivers.get plugin = (b.runSteps ss).receivers.get plugin) ∧
      (∀ (mc : messageCreate) (q : String),
        (b.dispatchMessage mc).receivers.get q =
            (b.receivers.get q).map (fun c => c.trySend (b.receiveMessageOf mc)) ∧
          ∀ c : PluginChan, c.canAccept = false → c.trySend (b.receiveMessageOf mc) = c) := by
  have hfun : (fun mc : messageCreate =>
      ({ Typ := b.getMessageType mc, Ident := mc.Author.ID, Content := mc.Content } :
        ReceiveMessage)) = b.receiveMessageOf := rfl
  rw [hfun]
  refine ⟨?_, ?_, ?_, ?_⟩
  · exact fun c hget hwf hacc => runSteps_of_acceptsThroughout plugin ss b c hget hwf hacc
  · intro c hget hpark hnd
    refine ⟨runSteps_of_neverDrains plugin ss b c hget hpark hnd, ?_⟩
    rw [List.length_take]
    omega
  · exact fun b' hk hr => runSteps_get_congr plugin ss b b' hk hr
  · intro mc q
    refine ⟨dispatchMessage_get b mc q, fun c hfull => ?_⟩
    simp only [PluginChan.canAccept, decide_eq_false_iff_not, not_or] at hfull
    simp [PluginChan.trySend, hfull.1, hfull.2]

/-- Witness for C5 on the example run of three messages: `version`
(unbuffered, its receiver waiting at every dispatch) is handed all three in
order; `giveaway` (one slot, full, never read) ends as it began; and
`version` ends the same when it is the only plugin. -/
theorem dispatch_fan_out_witness :
    ((exampleBot.runSteps exampleRun).receivers.get "version").map PluginChan.accepted =
        some [⟨MessageType.WHISPER, "U7", "one"⟩, ⟨MessageType.MESSAGE, "U8", "two"⟩,
          ⟨MessageType.WHISPER, "U7", "three"⟩] ∧
      (exampleBot.runSteps exampleRun).receivers.get "giveaway" =
        some ⟨1, [⟨MessageType.MESSAGE, "U1", "old"⟩], 0, []⟩ ∧
      (Bot.runSteps { exampleBot with receivers := [("version", ⟨0, [], 1, []⟩)] }
          exampleRun).receivers.get "version" =
        (exampleBot.runSteps exampleRun).receivers.get "version" :=
  ⟨(dispatch_fan_out exampleBot exampleRun "version").1 ⟨0, [], 1, []⟩ (by decide)
      (by decide) (by decide),
    ((dispatch_fan_out exampleBot exampleRun "giveaway").2.1
      ⟨1, [⟨MessageType.MESSAGE, "U1", "old"⟩], 0, []⟩ (by decide) rfl (by decide)).1,
    (dispatch_fan_out exampleBot exampleRun "version").2.2.1
      { exampleBot with receivers := [("version", ⟨0, [], 1, []⟩)] } rfl (by decide)⟩

end Discord

/-! ## Construction and life cycle of the matrix bot -/

namespace Matrix

theorem login_error_no_bot (env : Env) (server username password err : String)
    (h : (Bot.new server).login env username password = .error err) :
    CreateMatrixBot env server username password "" = .error err := by
  simp [CreateMatrixBot, h]

theorem status_always_running (b : Bot) : b.Status = { Running := true } := rfl

/-- C10, the code at the failing input: with a token supplied and a server
that cannot be reached, the room join of `connectToMatrixServer` fails, yet
`CreateMatrixBot` returns a bot and no error. -/
theorem create_ignores_join_failure :
    ∃ b : Bot, CreateMatrixBot offlineEnv "https://matrix.example" "bot" "pw" "tok" = .ok b ∧
      b.token = "tok" ∧
      b.connectToMatrixServer offlineEnv = .error "apiCall failed: connection refused" :=
  ⟨_, rfl, rfl, rfl⟩

/-- C6, the code at the failing input: a bot created and started is RUNNING;
`Stop` returns with the polling loop exited and `receiveMessageChan` closed
once, but `sendMessageChan` and `commandChan` have never been closed and the
two receivers that range over them are still running, so the bot is not
STOPPED. -/
theorem stop_closes_one_channel_of_three :
    ∃ b s : Bot, CreateMatrixBot onlineEnv "https://matrix.example" "bot" "pw" "" = .ok b ∧
      (b.Start Chan.make).isRunning = true ∧
      (b.Start Chan.make).Stop = .ok s ∧
      s.pollingLoop = Loop.exited ∧
      s.receiveMessageChan.closes = 1 ∧
      s.sendMessageChan.closes = 0 ∧
      s.commandChan.closes = 0 ∧
      s.sendChannelReceiver = Loop.running ∧
      s.commandChannelReceiver = Loop.running ∧
      s.isStopped = false :=
  ⟨_, _, rfl, by decide, rfl, rfl, rfl, rfl, rfl, rfl, rfl, by decide⟩

/-- C7, the code at the failing input: a bot that was created and never
started is not RUNNING, and neither is it after `Start` and `Stop`; `Status`
reports `Running: true` in both states. -/
theorem status_true_when_not_running :
    ∃ b s : Bot, CreateMatrixBot onlineEnv "https://matrix.example" "bot" "pw" "" = .ok b ∧
      b.isRunning = false ∧
      b.Status = { Running := true } ∧
      (b.Start Chan.make).Stop = .ok s ∧
      s.isRunning = false ∧
      s.Status = { Running := true } :=
  ⟨_, _, rfl, by decide, rfl, rfl, by decide, rfl⟩

end Matrix

end Abylebotter
